import Mathlib

/-!
Shallow embedding of `src/api/views.py` of the YamDb repository: a Django
REST framework application exposing CRUD endpoints over titles, categories,
genres, reviews, comments and users, with an email confirmation-code
authentication flow (`send_confirmation_code`, `get_jwt_token`).

The database is modelled as lists of records; ORM calls (`filter`,
`exists`, `create_user`, `update`, `get_object_or_404`, `annotate(Avg)`,
`order_by`) become the corresponding list operations; framework functions
(`make_password`, `check_password`, `AccessToken.for_user`, SQL `AVG`) are
modelled as concrete executable functions with the behaviour the views rely
on.  Request handlers become functions from a database state and a request
to a new state plus a response.
-/

namespace YamDb

/-! ## Data model (the ORM rows the views read and write) -/

/-- A row of the `User` model: the fields `views.py` touches
(`id`, `email`, `confirmation_code`) plus profile fields patched via
`UserSerializer`.  `confirmation_code` stores the password-style hash
written by `send_confirmation_code`; `none` models the unset column. -/
structure User where
  id : Nat
  email : String
  username : String
  bio : String
  confirmation_code : Option Nat
deriving Repr, DecidableEq

/-- A row of the `Title` model (the fields the views use). -/
structure Title where
  id : Nat
  name : String
deriving Repr, DecidableEq

/-- A row of the `Review` model: each review belongs to a title, has an
author and an integer score. -/
structure Review where
  id : Nat
  title_id : Nat
  author_id : Nat
  score : Nat
deriving Repr, DecidableEq

/-- A row of the `Comment` model: each comment belongs to a review. -/
structure Comment where
  id : Nat
  review_id : Nat
  author_id : Nat
  text : String
deriving Repr, DecidableEq

/-- The relational database backing the API. -/
structure DB where
  users : List User
  titles : List Title
  reviews : List Review
  comments : List Comment
deriving Repr, DecidableEq

/-- An email handed to `send_mail`. -/
structure Mail where
  subject : String
  message : String
  recipient : String
deriving Repr, DecidableEq

/-! ## Framework functions the views call -/

/-- Django's `make_password` (framework): maps a plaintext code to its
stored hash.  Modelled as a concrete injective encoding; the views rely
only on `check_password c (make_password c) = true` and on hashes of
distinct codes being distinct. -/
def make_password (code : Nat) : Nat := 2 * code + 1

/-- Django's `check_password plaintext stored` (framework): true iff the
stored value is the hash of the plaintext.  An unset column never
matches. -/
def check_password (code : Nat) (stored : Option Nat) : Bool :=
  match stored with
  | none => false
  | some h => make_password code == h

/-- `AccessToken.for_user` from rest_framework_simplejwt (framework): a
bearer token identifying the user. -/
def access_token (u : User) : String := "token-for-user-" ++ toString u.id

/-- `User.objects.create_user(email=email)` (framework): a fresh user row
with the given email and every other field at its default. -/
def create_user (freshId : Nat) (email : String) : User :=
  { id := freshId, email := email, username := "", bio := "",
    confirmation_code := none }

/-! ## Serializer validation

`serializers.py` is not under `src/`; the serializers the views
instantiate are modelled from the spec. -/

/-- Modelled from the spec: `serializers.py` is missing from `src/`;
`SendCodeSerializer` performs "field validation delegated to the
framework" on the submitted email, so a request is valid when it carries
a well-formed email address. -/
def sendCodeSerializerValid (email : Option String) : Bool :=
  match email with
  | none => false
  | some e => e.data.contains '@'

/-- The body of a POST to `send_confirmation_code`. -/
structure SendCodeRequest where
  email : Option String
deriving Repr, DecidableEq

/-- The body of a POST to `get_jwt_token`. -/
structure TokenRequest where
  email : Option String
  confirmation_code : Option Nat
deriving Repr, DecidableEq

/-- Modelled from the spec: `serializers.py` is missing from `src/`;
`CheckConfirmationCodeSerializer` validates that both required fields
(`email`, `confirmation_code`) are present and the email well-formed. -/
def checkConfirmationCodeSerializerValid (req : TokenRequest) : Bool :=
  sendCodeSerializerValid req.email && req.confirmation_code.isSome

/-! ## send_confirmation_code -/

/-- The response of `send_confirmation_code`, one constructor per
`return`/`raise` site of the Python function. -/
inductive SendCodeResult where
  /-- The 400 response produced when `is_valid(raise_exception=True)`
  raises a `ValidationError`. -/
  | validationError (errors : String)
  /-- The 200 response `Response(f'Code was sent to ...', 200)`. -/
  | ok (body : String)
  /-- The trailing `Response(serializer.errors, 400)` at the end of the
  function. -/
  | trailingErrors (errors : String)
deriving Repr, DecidableEq

/-- HTTP status of a `send_confirmation_code` response. -/
def SendCodeResult.status : SendCodeResult → Nat
  | .validationError _ => 400
  | .ok _ => 200
  | .trailingErrors _ => 400

/-- Whether the response is the trailing `Response(serializer.errors, 400)`. -/
def SendCodeResult.isTrailing : SendCodeResult → Bool
  | .trailingErrors _ => true
  | _ => false

/-- `send_confirmation_code` (views.py lines 116-148).  `freshCode` is the
value of `uuid.uuid4()` and `freshId` the primary key the ORM would assign
to a newly created user.  Control flow mirrors the Python: validate with
`raise_exception=True` (first branch), re-check `serializer.is_valid()`
(second branch, same validity), test `User.objects.filter(email=..).exists()`,
create the user if absent, hash and store the code for every user with that
email, send the plaintext by mail, return 200. -/
def send_confirmation_code (db : DB) (freshCode freshId : Nat)
    (req : SendCodeRequest) : DB × List Mail × SendCodeResult :=
  if sendCodeSerializerValid req.email then
    let email := req.email.getD ""
    if sendCodeSerializerValid req.email then
      let confirmation_code := freshCode
      let userExists := db.users.any (fun u => u.email == email)
      let db1 :=
        if userExists then db
        else { db with users := db.users ++ [create_user freshId email] }
      let db2 := { db1 with
        users := db1.users.map (fun u =>
          if u.email == email then
            { u with confirmation_code := some (make_password confirmation_code) }
          else u) }
      let mail : Mail :=
        { subject := "Confirmation code on Yamdb.ru",
          message := "Your confirmation code: " ++ toString confirmation_code,
          recipient := email }
      (db2, [mail], .ok ("Code was sent to " ++ email ++ ", please check"))
    else
      (db, [], .trailingErrors "serializer.errors")
  else
    (db, [], .validationError "serializer.errors")

/-! ## get_jwt_token -/

/-- The response of `get_jwt_token`, one constructor per `return`/`raise`
site of the Python function. -/
inductive TokenResult where
  /-- The 200 response carrying `{'token': ...}`. -/
  | ok (token : String)
  /-- A 400 response with a message (`'Wrong confirmation code'`). -/
  | badRequest (msg : String)
  /-- The 404 raised by `get_object_or_404(User, email=email)`. -/
  | notFound
  /-- The trailing `Response(serializer.errors, 400)`. -/
  | invalid (errors : String)
deriving Repr, DecidableEq

/-- HTTP status of a `get_jwt_token` response. -/
def TokenResult.status : TokenResult → Nat
  | .ok _ => 200
  | .badRequest _ => 400
  | .notFound => 404
  | .invalid _ => 400

/-- Whether the response is the 200 carrying a token. -/
def TokenResult.isSuccess : TokenResult → Bool
  | .ok _ => true
  | _ => false

/-- `get_jwt_token` (views.py lines 151-175): validate the serializer,
look the user up by email (404 if absent), compare the submitted code
against the stored hash with `check_password`, return the access token on
a match and `'Wrong confirmation code'` otherwise.  The function performs
no database write, so the state is returned unchanged. -/
def get_jwt_token (db : DB) (req : TokenRequest) : DB × TokenResult :=
  if checkConfirmationCodeSerializerValid req then
    let email := req.email.getD ""
    let confirmation_code := req.confirmation_code.getD 0
    match db.users.find? (fun u => u.email == email) with
    | none => (db, .notFound)
    | some user =>
      if check_password confirmation_code user.confirmation_code then
        (db, .ok (access_token user))
      else
        (db, .badRequest "Wrong confirmation code")
  else
    (db, .invalid "serializer.errors")

/-- The stored confirmation-code column of the (first) user with the given
email: `none` when no such user exists. -/
def stored_code (db : DB) (email : String) : Option (Option Nat) :=
  (db.users.find? (fun u => u.email == email)).map (fun u => u.confirmation_code)

/-! ## TitleViewSet: `Title.objects.annotate(rating=Avg('reviews__score')).order_by('id')` -/

/-- SQL `AVG` aggregate (database engine): `NULL` over an empty group,
otherwise the arithmetic mean of the aggregated values. -/
def sqlAvg (xs : List ℚ) : Option ℚ :=
  match xs with
  | [] => none
  | _ => some ((xs.foldl (· + ·) 0) / (xs.length : ℚ))

/-- The scores of the reviews of a title, i.e. the group the ORM's
`Avg('reviews__score')` aggregates for that title. -/
def title_review_scores (db : DB) (t : Title) : List ℚ :=
  (db.reviews.filter (fun r => r.title_id == t.id)).map (fun r => (r.score : ℚ))

/-- A title row annotated with the `rating` column. -/
structure AnnotatedTitle where
  title : Title
  rating : Option ℚ
deriving Repr, DecidableEq

/-- The queryset of `TitleViewSet` (views.py lines 37-38): annotate every
title with the average review score and order by ascending id. -/
def titleViewSet_queryset (db : DB) : List AnnotatedTitle :=
  List.insertionSort (fun a b => a.title.id ≤ b.title.id)
    (db.titles.map (fun t =>
      { title := t, rating := sqlAvg (title_review_scores db t) }))

/-! ## CommentViewSet -/

/-- The outcome of a view that may raise `Http404` via
`get_object_or_404`. -/
inductive ViewResult (α : Type) where
  /-- The view ran and produced a value. -/
  | ok (a : α)
  /-- `get_object_or_404` raised `Http404`. -/
  | notFound
deriving Repr, DecidableEq

/-- The lookup both `CommentViewSet` handlers perform:
`get_object_or_404(Review.objects.filter(title_id=title_id), pk=review_id)`. -/
def lookup_review (db : DB) (title_id review_id : Nat) : Option Review :=
  (db.reviews.filter (fun r => r.title_id == title_id)).find?
    (fun r => r.id == review_id)

/-- `CommentViewSet.get_queryset` (views.py lines 55-62): 404 unless a
review with pk `review_id` exists among the reviews of title `title_id`,
else that review's comments. -/
def comment_get_queryset (db : DB) (title_id review_id : Nat) :
    ViewResult (List Comment) :=
  match lookup_review db title_id review_id with
  | none => .notFound
  | some review => .ok (db.comments.filter (fun c => c.review_id == review.id))

/-- `CommentViewSet.perform_create` (views.py lines 64-71): the same 404
lookup, then `serializer.save(author=request.user, review=review)`, which
inserts a comment row authored by the requesting user under that review. -/
def comment_perform_create (db : DB) (title_id review_id author_id freshId : Nat)
    (text : String) : ViewResult DB :=
  match lookup_review db title_id review_id with
  | none => .notFound
  | some review =>
    .ok { db with comments := db.comments ++
      [{ id := freshId, review_id := review.id, author_id := author_id,
         text := text }] }

/-! ## APIUser (the `/me` endpoints) -/

/-- A PATCH body for `UserSerializer(partial=True)`: each field is either
absent or carries a new value. -/
structure PatchData where
  username : Option String
  bio : Option String
deriving Repr, DecidableEq

/-- Modelled from the spec: `serializers.py` is missing from `src/`;
`UserSerializer`'s "field validation delegated to the framework" accepts a
partial update when every submitted field is well-formed (a submitted
username must be nonempty). -/
def userSerializerValid (d : PatchData) : Bool :=
  match d.username with
  | some u => !u.isEmpty
  | none => true

/-- An authenticated request carries the id of `request.user`;
`auth_user_id = none` models an unauthenticated request. -/
structure MeRequest where
  auth_user_id : Option Nat
  data : PatchData
deriving Repr, DecidableEq

/-- The response of the `/me` endpoints, one constructor per
`return`/`raise` site. -/
inductive MeResult where
  /-- A 200 response carrying `serializer.data` for the user row. -/
  | ok (data : User)
  /-- The 400 response carrying `serializer.errors`. -/
  | badRequest (errors : String)
  /-- The 401 response `'You are not authenticated'`. -/
  | unauthorized
  /-- The 404 raised by `get_object_or_404(User, id=request.user.id)`. -/
  | notFound
deriving Repr, DecidableEq

/-- HTTP status of a `/me` response. -/
def MeResult.status : MeResult → Nat
  | .ok _ => 200
  | .badRequest _ => 400
  | .unauthorized => 401
  | .notFound => 404

/-- `APIUser.get` (views.py lines 191-200): 401 when
`request.user.is_authenticated` is false, else look the user up by id and
return its serialized data. -/
def apiUser_get (db : DB) (req : MeRequest) : MeResult :=
  match req.auth_user_id with
  | some uid =>
    match db.users.find? (fun u => u.id == uid) with
    | none => .notFound
    | some user => .ok user
  | none => .unauthorized

/-- `UserSerializer(user, data=request.data, partial=True).save()`: update
exactly the submitted fields of the row. -/
def apply_patch (d : PatchData) (u : User) : User :=
  { u with username := d.username.getD u.username, bio := d.bio.getD u.bio }

/-- `APIUser.patch` (views.py lines 205-224): 401 when unauthenticated;
otherwise look the user up by id, validate the partial data, on success
save the update and return 200 with the updated data, on failure return
400 with the errors. -/
def apiUser_patch (db : DB) (req : MeRequest) : DB × MeResult :=
  match req.auth_user_id with
  | some uid =>
    match db.users.find? (fun u => u.id == uid) with
    | none => (db, .notFound)
    | some user =>
      if userSerializerValid req.data then
        let updated := apply_patch req.data user
        ({ db with users := db.users.map (fun v =>
             if v.id == uid then updated else v) },
         .ok updated)
      else
        (db, .badRequest "serializer.errors")
  | none => (db, .unauthorized)

/-! ## The CRUD surface of the six viewsets -/

/-- The six resources the API exposes. -/
inductive Resource where
  | titles | categories | genres | reviews | comments | users
deriving Repr, DecidableEq, Fintype

/-- The CRUD operations of the spec's claim: create, retrieve (single
object), list, update (full or partial) and delete. -/
inductive CrudOp where
  | create | retrieve | list | update | delete
deriving Repr, DecidableEq, BEq, Fintype

/-- The handlers a `ModelViewSet` provides (rest_framework): all five. -/
def modelViewSetOps : List CrudOp :=
  [.create, .retrieve, .list, .update, .delete]

/-- The handlers `CreateDeleteListViewSet` provides (views.py lines 29-33):
only the Create, Destroy and List mixins are inherited, so there is no
retrieve and no update handler. -/
def createDeleteListOps : List CrudOp := [.create, .delete, .list]

/-- The operations each viewset supports: `TitleViewSet`, `ReviewViewSet`,
`CommentViewSet` and `UserViewSet` extend `ModelViewSet`;
`CategoryViewSet` and `GenreViewSet` extend `CreateDeleteListViewSet`
(and restrict `http_method_names` to get/post/delete). -/
def supportedOps : Resource → List CrudOp
  | .titles => modelViewSetOps
  | .reviews => modelViewSetOps
  | .comments => modelViewSetOps
  | .users => modelViewSetOps
  | .categories => createDeleteListOps
  | .genres => createDeleteListOps

/-- Whether a resource supports a CRUD operation. -/
def supports (r : Resource) (op : CrudOp) : Bool :=
  (supportedOps r).contains op

/-! ## Operation traces over the authentication state -/

/-- An API call affecting (or reading) the authentication state. -/
inductive Op where
  /-- A POST to `send_confirmation_code`. -/
  | sendCode (freshCode freshId : Nat) (req : SendCodeRequest)
  /-- A POST to `get_jwt_token`. -/
  | getJwt (req : TokenRequest)
deriving Repr, DecidableEq

/-- The database state after one API call. -/
def applyOp (db : DB) : Op → DB
  | .sendCode c i r => (send_confirmation_code db c i r).1
  | .getJwt r => (get_jwt_token db r).1

/-- The database state after a sequence of API calls. -/
def applyOps (db : DB) : List Op → DB
  | [] => db
  | op :: ops => applyOps (applyOp db op) ops

/-- Whether an operation is a `send_confirmation_code` call for the given
email. -/
def Op.sendsTo (op : Op) (email : String) : Bool :=
  match op with
  | .sendCode _ _ req => req.email == some email
  | .getJwt _ => false

/-! ## Helper lemmas -/

/-- `get_jwt_token` performs no database write. -/
lemma get_jwt_token_fst (db : DB) (req : TokenRequest) :
    (get_jwt_token db req).1 = db := by
  unfold get_jwt_token
  split
  · simp only []
    split
    · rfl
    · split <;> rfl
  · rfl

/-- Unfolding `get_jwt_token` on a fully populated request against a found
user. -/
lemma get_jwt_token_found (db : DB) (email : String) (code : Nat) (u : User)
    (hv : sendCodeSerializerValid (some email) = true)
    (hu : db.users.find? (fun v => v.email == email) = some u) :
    get_jwt_token db { email := some email, confirmation_code := some code } =
      (db, if check_password code u.confirmation_code then .ok (access_token u)
           else .badRequest "Wrong confirmation code") := by
  unfold get_jwt_token
  simp [checkConfirmationCodeSerializerValid, hv, hu]
  split <;> simp_all

/-- Evaluating `send_confirmation_code` on a request that passes
serializer validation. -/
lemma send_confirmation_code_valid_eq (db : DB) (c i : Nat) (email : String)
    (hv : sendCodeSerializerValid (some email) = true) :
    send_confirmation_code db c i { email := some email } =
      (let db1 := if db.users.any (fun u => u.email == email) then db
                  else { db with users := db.users ++ [create_user i email] }
       ({ db1 with users := db1.users.map (fun u =>
            if u.email == email then
              { u with confirmation_code := some (make_password c) }
            else u) },
        [{ subject := "Confirmation code on Yamdb.ru",
           message := "Your confirmation code: " ++ toString c,
           recipient := email }],
        .ok ("Code was sent to " ++ email ++ ", please check"))) := by
  unfold send_confirmation_code
  simp [hv]

/-- After setting the confirmation-code column on every user with the
given email, the first user found at that email does hold the new value,
provided some user with that email is present. -/
lemma find?_map_set_code (l : List User) (email : String) (h : Nat)
    (hany : l.any (fun u => u.email == email) = true) :
    ((l.map (fun u => if u.email == email then
        { u with confirmation_code := some h } else u)).find?
      (fun u => u.email == email)).map (fun u => u.confirmation_code)
      = some (some h) := by
  induction l with
  | nil => simp at hany
  | cons x xs ih =>
    by_cases hx : (x.email == email) = true
    · rw [List.map_cons, if_pos hx, List.find?_cons_of_pos]
      · rfl
      · exact hx
    · have hfx : (if (x.email == email) = true then
          ({ x with confirmation_code := some h } : User) else x) = x := by
        rw [if_neg hx]
      rw [List.map_cons, hfx, List.find?_cons_of_neg]
      · simp only [List.any_cons] at hany
        rcases (by simpa using hany : (x.email == email) = true ∨
            (xs.any fun u => u.email == email) = true) with hc | hc
        · exact absurd hc hx
        · exact ih hc
      · exact hx

/-- A user list extended with `create_user` at the given email contains a
user with that email. -/
lemma any_email_append_create (l : List User) (i : Nat) (email : String) :
    (l ++ [create_user i email]).any (fun u => u.email == email) = true := by
  simp [List.any_append, create_user]

/-- When the stored column at an email is exactly the hash of a code,
submitting that code succeeds. -/
lemma get_jwt_token_success_of_stored (db : DB) (email : String) (code : Nat)
    (hv : sendCodeSerializerValid (some email) = true)
    (hs : stored_code db email = some (some (make_password code))) :
    (get_jwt_token db
      { email := some email, confirmation_code := some code }).2.isSuccess
      = true := by
  unfold stored_code at hs
  cases hfind : db.users.find? (fun u => u.email == email) with
  | none => rw [hfind] at hs; simp at hs
  | some u =>
    rw [hfind] at hs
    simp at hs
    rw [get_jwt_token_found db email code u hv hfind]
    simp [check_password, hs, TokenResult.isSuccess]

/-- A user-to-user map that preserves the email field and fixes every
user whose email matches leaves the lookup at that email unchanged. -/
lemma find?_email_map_other (l : List User) (email : String) (f : User → User)
    (hpres : ∀ u, (f u).email = u.email)
    (hfix : ∀ u, (u.email == email) = true → f u = u) :
    (l.map f).find? (fun u => u.email == email)
      = l.find? (fun u => u.email == email) := by
  induction l with
  | nil => rfl
  | cons x xs ih =>
    by_cases hx : (x.email == email) = true
    · rw [List.map_cons]
      rw [List.find?_cons_of_pos]
      · rw [List.find?_cons_of_pos]
        · rw [hfix x hx]
        · exact hx
      · show ((f x).email == email) = true
        rw [hpres]
        exact hx
    · rw [List.map_cons]
      rw [List.find?_cons_of_neg]
      · rw [List.find?_cons_of_neg]
        · exact ih
        · exact hx
      · show ¬ ((f x).email == email) = true
        rw [hpres]
        exact hx

/-- One API call that is not a `send_confirmation_code` for the given
email leaves the stored confirmation-code column at that email
unchanged. -/
lemma stored_code_applyOp_other (db : DB) (op : Op) (email : String)
    (hop : op.sendsTo email = false) :
    stored_code (applyOp db op) email = stored_code db email := by
  cases op with
  | getJwt req => simp [applyOp, get_jwt_token_fst]
  | sendCode c i req =>
    obtain ⟨remail⟩ := req
    simp only [Op.sendsTo] at hop
    show stored_code (send_confirmation_code db c i ⟨remail⟩).1 email
      = stored_code db email
    cases remail with
    | none =>
      unfold send_confirmation_code
      simp [sendCodeSerializerValid]
    | some e' =>
      have hne : ¬ e' = email := by
        intro hcontra
        rw [hcontra] at hop
        simp at hop
      by_cases hval : sendCodeSerializerValid (some e') = true
      · rw [send_confirmation_code_valid_eq db c i e' hval]
        unfold stored_code
        simp only []
        rw [find?_email_map_other]
        · by_cases hex : db.users.any (fun u => u.email == e') = true
          · simp only [hex, if_true]
          · simp only [hex, if_false, Bool.false_eq_true]
            rw [List.find?_append]
            have hnone : List.find? (fun u => u.email == email)
                [create_user i e'] = none := by
              simp [create_user, hne]
            rw [hnone, Option.or_none]
        · intro u
          by_cases hu : (u.email == e') = true <;> simp [hu]
        · intro u hu
          have hue : u.email = email := by simpa using hu
          have : (u.email == e') = false := by
            rw [hue]
            exact beq_eq_false_iff_ne.mpr (fun hc => hne hc.symm)
          rw [if_neg]
          simp [this]
      · have hval' : sendCodeSerializerValid (some e') = false := by
          simpa using hval
        unfold send_confirmation_code
        simp [hval']

/-- No operation in a trace sends a confirmation code to the given email:
the stored column at that email is unchanged across the whole trace. -/
lemma stored_code_applyOps_other (db : DB) (ops : List Op) (email : String)
    (hops : ∀ op ∈ ops, op.sendsTo email = false) :
    stored_code (applyOps db ops) email = stored_code db email := by
  induction ops generalizing db with
  | nil => rfl
  | cons op ops ih =>
    show stored_code (applyOps (applyOp db op) ops) email = stored_code db email
    rw [ih (applyOp db op) (fun o ho => hops o (List.mem_cons_of_mem _ ho))]
    exact stored_code_applyOp_other db op email (hops op (List.mem_cons_self _ _))

/-- The success of `get_jwt_token` depends on the database only through
the stored confirmation-code column at the submitted email. -/
lemma get_jwt_token_success_congr (db db' : DB) (req : TokenRequest)
    (h : stored_code db' (req.email.getD "") = stored_code db (req.email.getD "")) :
    (get_jwt_token db' req).2.isSuccess = (get_jwt_token db req).2.isSuccess := by
  unfold get_jwt_token
  by_cases hv : checkConfirmationCodeSerializerValid req = true
  · simp only [hv, if_true]
    unfold stored_code at h
    cases hf' : db'.users.find? (fun u => u.email == req.email.getD "") with
    | none =>
      cases hf : db.users.find? (fun u => u.email == req.email.getD "") with
      | none => rfl
      | some u => rw [hf', hf] at h; simp at h
    | some u' =>
      cases hf : db.users.find? (fun u => u.email == req.email.getD "") with
      | none => rw [hf', hf] at h; simp at h
      | some u =>
        rw [hf', hf] at h
        have h2 : u'.confirmation_code = u.confirmation_code := by
          simpa using h
        by_cases hcp : check_password (req.confirmation_code.getD 0)
            u.confirmation_code = true
        · simp [h2, hcp, TokenResult.isSuccess]
        · have hcp' : check_password (req.confirmation_code.getD 0)
              u.confirmation_code = false := by simpa using hcp
          simp [h2, hcp', TokenResult.isSuccess]
  · simp only [hv]
    simp

/-- When no review with the given pk belongs to the given title, the
`CommentViewSet` lookup raises 404. -/
lemma lookup_review_eq_none (db : DB) (title_id review_id : Nat)
    (h : ¬ ∃ r ∈ db.reviews, r.title_id = title_id ∧ r.id = review_id) :
    lookup_review db title_id review_id = none := by
  unfold lookup_review
  cases hf : (db.reviews.filter (fun r => r.title_id == title_id)).find?
      (fun r => r.id == review_id) with
  | none => rfl
  | some r =>
    exfalso
    have hmem := List.mem_of_find?_eq_some hf
    have hpred := List.find?_some hf
    have hfilt := List.of_mem_filter hmem
    exact h ⟨r, List.mem_of_mem_filter hmem,
      by simpa using hfilt, by simpa using hpred⟩

/-- When review pks are unique, the `CommentViewSet` lookup finds exactly
the review of the given title with the given pk. -/
lemma lookup_review_eq_some (db : DB) (title_id review_id : Nat)
    (review : Review) (hmem : review ∈ db.reviews)
    (ht : review.title_id = title_id) (hid : review.id = review_id)
    (hnodup : (db.reviews.map (fun r => r.id)).Nodup) :
    lookup_review db title_id review_id = some review := by
  unfold lookup_review
  have hmemf : review ∈ db.reviews.filter (fun r => r.title_id == title_id) :=
    List.mem_filter.mpr ⟨hmem, by simpa using ht⟩
  have hsome : ((db.reviews.filter (fun r => r.title_id == title_id)).find?
      (fun r => r.id == review_id)).isSome = true :=
    List.find?_isSome.mpr ⟨review, hmemf, by simpa using hid⟩
  cases hf : (db.reviews.filter (fun r => r.title_id == title_id)).find?
      (fun r => r.id == review_id) with
  | none => rw [hf] at hsome; simp at hsome
  | some r =>
    have hrid : r.id = review_id := by
      simpa using List.find?_some hf
    have hrmem : r ∈ db.reviews :=
      List.mem_of_mem_filter (List.mem_of_find?_eq_some hf)
    have : r = review :=
      List.inj_on_of_nodup_map hnodup hrmem hmem (by rw [hrid, hid])
    rw [this]

/-! ## Closed fixtures used to exercise the theorems -/

/-- A concrete user holding the stored hash of the code 42. -/
def exUser : User :=
  { id := 1, email := "alice@example.com", username := "alice", bio := "",
    confirmation_code := some (make_password 42) }

/-- A one-user database. -/
def exDB : DB :=
  { users := [exUser], titles := [], reviews := [], comments := [] }

/-- A token request submitting the plaintext code 42 for that user. -/
def exTokenReq : TokenRequest :=
  { email := some "alice@example.com", confirmation_code := some 42 }

/-- A valid partial update for the concrete user. -/
def exPatch : PatchData := { username := some "alice2", bio := none }

/-- A concrete title. -/
def exTitle : Title := { id := 10, name := "Film" }

/-- A concrete review of that title. -/
def exReview : Review := { id := 20, title_id := 10, author_id := 1, score := 4 }

/-- A concrete comment under that review. -/
def exComment : Comment :=
  { id := 30, review_id := 20, author_id := 1, text := "nice" }

/-- A database holding the user, the title, its review and one comment. -/
def exDB10 : DB :=
  { users := [exUser], titles := [exTitle], reviews := [exReview],
    comments := [exComment] }

/-- A database holding a single title with no reviews. -/
def exDB8 : DB :=
  { users := [], titles := [exTitle], reviews := [], comments := [] }

/-! ## Claim theorems -/

/-- C1 (counterexample): the confirmation code is not one-time.  On a
concrete state holding the hash of code 42, exchanging the code succeeds
and a second `get_jwt_token` call with the same email and code, with no
intervening `send_confirmation_code`, succeeds again. -/
theorem confirmation_code_reused_after_success :
    (get_jwt_token exDB exTokenReq).2.isSuccess = true ∧
    (get_jwt_token (get_jwt_token exDB exTokenReq).1 exTokenReq).2.isSuccess
      = true := by
  constructor <;> decide

/-- C1 (amended): a successful exchange does not consume the code.
`get_jwt_token` never writes the database, so whenever a call succeeds, an
immediate second call with the same request succeeds as well. -/
theorem get_jwt_token_success_reusable (db : DB) (req : TokenRequest)
    (h : (get_jwt_token db req).2.isSuccess = true) :
    (get_jwt_token (get_jwt_token db req).1 req).2.isSuccess = true := by
  rw [get_jwt_token_fst]
  exact h

/-- C1 (witness): the amended theorem applied to the concrete one-user
state. -/
theorem get_jwt_token_success_reusable_witness :
    (get_jwt_token (get_jwt_token exDB exTokenReq).1 exTokenReq).2.isSuccess
      = true :=
  get_jwt_token_success_reusable exDB exTokenReq (by decide)

/-- C2: the authentication flow.  For every email accepted by the
serializer, `send_confirmation_code` stores the hash of the freshly
generated code as the user's `confirmation_code`, emails the plaintext
code to that address, answers 200, and a later `get_jwt_token` call
submitting that email and plaintext code is answered 200 with a token. -/
theorem auth_flow_correct (db : DB) (c i : Nat) (email : String)
    (hv : sendCodeSerializerValid (some email) = true) :
    stored_code (send_confirmation_code db c i { email := some email }).1 email
      = some (some (make_password c)) ∧
    (send_confirmation_code db c i { email := some email }).2.1 =
      [{ subject := "Confirmation code on Yamdb.ru",
         message := "Your confirmation code: " ++ toString c,
         recipient := email }] ∧
    (send_confirmation_code db c i { email := some email }).2.2 =
      .ok ("Code was sent to " ++ email ++ ", please check") ∧
    (get_jwt_token (send_confirmation_code db c i { email := some email }).1
      { email := some email, confirmation_code := some c }).2.isSuccess
      = true := by
  have hst : stored_code
      (send_confirmation_code db c i { email := some email }).1 email
      = some (some (make_password c)) := by
    rw [send_confirmation_code_valid_eq db c i email hv]
    unfold stored_code
    by_cases hex : db.users.any (fun u => u.email == email) = true
    · simp only [hex, if_true]
      exact find?_map_set_code db.users email (make_password c) hex
    · simp only [hex, if_false, Bool.false_eq_true]
      exact find?_map_set_code _ email (make_password c)
        (any_email_append_create db.users i email)
  refine ⟨hst, ?_, ?_, ?_⟩
  · rw [send_confirmation_code_valid_eq db c i email hv]
  · rw [send_confirmation_code_valid_eq db c i email hv]
  · exact get_jwt_token_success_of_stored _ email c hv hst

/-- C2 (witness): the flow run on the concrete one-user state for a new
address, with fresh code 7 and fresh id 2. -/
theorem auth_flow_correct_witness :
    ((get_jwt_token
      (send_confirmation_code exDB 7 2 { email := some "bob@example.com" }).1
      { email := some "bob@example.com",
        confirmation_code := some 7 }).2).isSuccess = true :=
  (auth_flow_correct exDB 7 2 "bob@example.com" (by decide)).2.2.2

/-- C3: the exists/create branch.  For every email accepted by the
serializer, `send_confirmation_code` creates exactly one user when none
with that email exists and creates none when one exists; in both cases
every user with that email ends up holding the hash of the fresh code and
the response status is 200. -/
theorem send_confirmation_code_exists_create (db : DB) (c i : Nat)
    (email : String)
    (hv : sendCodeSerializerValid (some email) = true) :
    (db.users.any (fun u => u.email == email) = false →
      (send_confirmation_code db c i { email := some email }).1.users.length
        = db.users.length + 1) ∧
    (db.users.any (fun u => u.email == email) = true →
      (send_confirmation_code db c i { email := some email }).1.users.length
        = db.users.length) ∧
    (∀ u ∈ (send_confirmation_code db c i { email := some email }).1.users,
      u.email = email → u.confirmation_code = some (make_password c)) ∧
    (send_confirmation_code db c i { email := some email }).2.2.status
      = 200 := by
  rw [send_confirmation_code_valid_eq db c i email hv]
  refine ⟨?_, ?_, ?_, rfl⟩
  · intro hex
    simp [hex]
  · intro hex
    simp [hex]
  · intro u hu hemail
    rcases List.mem_map.mp hu with ⟨v, hv2, rfl⟩
    by_cases hveq : (v.email == email) = true
    · rw [if_pos hveq]
    · rw [if_neg hveq] at hemail
      exact absurd (beq_iff_eq.mpr hemail) hveq

/-- C3 (witness): sending a code to a fresh address on the concrete
one-user state creates exactly one user. -/
theorem send_confirmation_code_exists_create_witness :
    ((send_confirmation_code exDB 7 2
      { email := some "bob@example.com" }).1).users.length
      = exDB.users.length + 1 :=
  (send_confirmation_code_exists_create exDB 7 2 "bob@example.com"
    (by decide)).1 (by decide)

/-- C4: on a request for an existing user that passes serializer
validation, `get_jwt_token` leaves the state unchanged, answers 200 with
the user's access token when the submitted code matches the stored hash,
answers 400 with `'Wrong confirmation code'` otherwise, and its status is
always 200 or 400. -/
theorem get_jwt_token_matches_or_rejects (db : DB) (email : String)
    (code : Nat) (u : User)
    (hv : sendCodeSerializerValid (some email) = true)
    (hu : db.users.find? (fun v => v.email == email) = some u) :
    (get_jwt_token db { email := some email, confirmation_code := some code }).1
      = db ∧
    (check_password code u.confirmation_code = true →
      (get_jwt_token db
        { email := some email, confirmation_code := some code }).2 =
        .ok (access_token u)) ∧
    (check_password code u.confirmation_code = false →
      (get_jwt_token db
        { email := some email, confirmation_code := some code }).2 =
        .badRequest "Wrong confirmation code") ∧
    ((get_jwt_token db
        { email := some email, confirmation_code := some code }).2.status = 200 ∨
     (get_jwt_token db
        { email := some email, confirmation_code := some code }).2.status = 400) := by
  rw [get_jwt_token_found db email code u hv hu]
  refine ⟨rfl, ?_, ?_, ?_⟩
  · intro h; simp [h]
  · intro h; simp [h]
  · by_cases h : check_password code u.confirmation_code <;>
      simp [h, TokenResult.status]

/-- C4 (witness): on the concrete one-user state the matching code is
answered with the user's token. -/
theorem get_jwt_token_matches_or_rejects_witness :
    (get_jwt_token exDB exTokenReq).2 = .ok (access_token exUser) :=
  (get_jwt_token_matches_or_rejects exDB "alice@example.com" 42 exUser
    (by decide) (by decide)).2.1 (by decide)

/-- C6: confirmation codes do not expire.  If a submitted code is accepted
in some state, it is still accepted after any sequence of further API
calls that contains no `send_confirmation_code` for that email: acceptance
depends only on the submitted code and the stored hash, and the stored
hash is only rewritten by `send_confirmation_code`. -/
theorem confirmation_code_no_expiry (db : DB) (ops : List Op) (email : String)
    (code : Nat)
    (hops : ∀ op ∈ ops, op.sendsTo email = false)
    (hacc : (get_jwt_token db
      { email := some email, confirmation_code := some code }).2.isSuccess
      = true) :
    (get_jwt_token (applyOps db ops)
      { email := some email, confirmation_code := some code }).2.isSuccess
      = true := by
  have hst := stored_code_applyOps_other db ops email hops
  rw [get_jwt_token_success_congr db (applyOps db ops)
    { email := some email, confirmation_code := some code } hst]
  exact hacc

/-- C6 (witness): the stored code of the concrete user survives a
`send_confirmation_code` for a different email and an interleaved
`get_jwt_token` call. -/
theorem confirmation_code_no_expiry_witness :
    (get_jwt_token (applyOps exDB
      [Op.sendCode 9 3 { email := some "bob@example.com" },
       Op.getJwt exTokenReq]) exTokenReq).2.isSuccess = true :=
  confirmation_code_no_expiry exDB
    [Op.sendCode 9 3 { email := some "bob@example.com" },
     Op.getJwt exTokenReq] "alice@example.com" 42 (by decide) (by decide)

/-- C7: the `/me` endpoints.  An unauthenticated request to `APIUser.get`
or `APIUser.patch` is answered 401; for an authenticated user whose row
exists, `APIUser.patch` answers 200 with the updated data when the
submitted partial data is valid and 400 with the errors otherwise. -/
theorem apiUser_me_statuses (db : DB) (d : PatchData) (uid : Nat) (u : User)
    (hu : db.users.find? (fun v => v.id == uid) = some u) :
    (apiUser_get db { auth_user_id := none, data := d }).status = 401 ∧
    ((apiUser_patch db { auth_user_id := none, data := d }).2).status = 401 ∧
    (userSerializerValid d = true →
      (apiUser_patch db { auth_user_id := some uid, data := d }).2
        = .ok (apply_patch d u)) ∧
    (userSerializerValid d = false →
      (apiUser_patch db { auth_user_id := some uid, data := d }).2
        = .badRequest "serializer.errors") := by
  refine ⟨rfl, rfl, ?_, ?_⟩
  · intro hval
    unfold apiUser_patch
    simp [hu, hval]
  · intro hval
    unfold apiUser_patch
    simp [hu, hval]

/-- C7 (witness): a valid patch of the concrete user's username is
answered with the updated row. -/
theorem apiUser_me_statuses_witness :
    (apiUser_patch exDB { auth_user_id := some 1, data := exPatch }).2
      = .ok (apply_patch exPatch exUser) :=
  (apiUser_me_statuses exDB exPatch 1 exUser (by decide)).2.2.1 (by decide)

/-- C9: the trailing `Response(serializer.errors, 400)` of
`send_confirmation_code` is dead code: `is_valid(raise_exception=True)`
already raised on invalid data, so the second `is_valid` check always
passes and no execution reaches the trailing response. -/
theorem send_confirmation_code_trailing_unreachable (db : DB)
    (freshCode freshId : Nat) (req : SendCodeRequest) :
    (send_confirmation_code db freshCode freshId req).2.2.isTrailing
      = false := by
  unfold send_confirmation_code
  by_cases h : sendCodeSerializerValid req.email <;>
    simp [h, SendCodeResult.isTrailing]

/-- C10: comments are scoped to their review and title.  When no review
with the given pk belongs to the given title, both `CommentViewSet`
handlers answer 404; otherwise (with unique review pks) listing returns
exactly that review's comments and creation inserts a comment whose
author is the requesting user and whose parent is that review. -/
theorem commentViewSet_scoped (db : DB)
    (title_id review_id author_id freshId : Nat) (text : String) :
    ((¬ ∃ r ∈ db.reviews, r.title_id = title_id ∧ r.id = review_id) →
      comment_get_queryset db title_id review_id = .notFound ∧
      comment_perform_create db title_id review_id author_id freshId text
        = .notFound) ∧
    (∀ review ∈ db.reviews, review.title_id = title_id →
      review.id = review_id →
      (db.reviews.map (fun r => r.id)).Nodup →
      comment_get_queryset db title_id review_id
        = .ok (db.comments.filter (fun c => c.review_id == review.id)) ∧
      comment_perform_create db title_id review_id author_id freshId text
        = .ok { db with comments := db.comments ++
            [{ id := freshId, review_id := review.id, author_id := author_id,
               text := text }] }) := by
  constructor
  · intro h
    have hl := lookup_review_eq_none db title_id review_id h
    constructor
    · unfold comment_get_queryset
      rw [hl]
    · unfold comment_perform_create
      rw [hl]
  · intro review hmem ht hid hnodup
    have hl := lookup_review_eq_some db title_id review_id review hmem ht hid
      hnodup
    constructor
    · unfold comment_get_queryset
      rw [hl]
    · unfold comment_perform_create
      rw [hl]

/-- C10 (witness): on the concrete state, listing the comments of review
20 under title 10 returns exactly that review's comments. -/
theorem commentViewSet_scoped_witness :
    comment_get_queryset exDB10 10 20
      = .ok (exDB10.comments.filter (fun c => c.review_id == exReview.id)) :=
  ((commentViewSet_scoped exDB10 10 20 1 31 "more").2 exReview (by decide)
    (by decide) (by decide) (by decide)).1

/-- C5 (counterexample): not every resource supports every CRUD operation.
Categories and genres are served by `CreateDeleteListViewSet`, which only
mixes in the Create, Destroy and List handlers, so they support neither
update nor single-object retrieve. -/
theorem categories_genres_no_update :
    supports .categories .update = false ∧
    supports .genres .update = false ∧
    supports .categories .retrieve = false ∧
    supports .genres .retrieve = false := by
  decide

/-- C5 (amended): titles, reviews, comments and users support all five
CRUD operations; categories and genres support exactly create, list and
delete. -/
theorem crud_surface :
    (∀ op : CrudOp, supports .titles op = true) ∧
    (∀ op : CrudOp, supports .reviews op = true) ∧
    (∀ op : CrudOp, supports .comments op = true) ∧
    (∀ op : CrudOp, supports .users op = true) ∧
    (∀ op : CrudOp, supports .categories op
      = (op == .create || op == .delete || op == .list)) ∧
    (∀ op : CrudOp, supports .genres op
      = (op == .create || op == .delete || op == .list)) := by
  decide

/-- C8: every entry of the `TitleViewSet` queryset carries as `rating` the
arithmetic mean of that title's review scores — `none` when the title has
no reviews — and the listing is sorted by ascending title id. -/
theorem titleViewSet_rating_avg_sorted (db : DB) :
    (∀ a ∈ titleViewSet_queryset db,
      (title_review_scores db a.title = [] → a.rating = none) ∧
      (title_review_scores db a.title ≠ [] →
        a.rating = some ((title_review_scores db a.title).sum
          / ((title_review_scores db a.title).length : ℚ)))) ∧
    List.Sorted (fun a b => a.title.id ≤ b.title.id)
      (titleViewSet_queryset db) := by
  constructor
  · intro a ha
    rcases List.mem_map.mp
        ((List.mem_insertionSort _).mp ha) with ⟨t, htmem, rfl⟩
    constructor
    · intro hempty
      show sqlAvg (title_review_scores db t) = none
      rw [hempty]
      rfl
    · intro hne
      show sqlAvg (title_review_scores db t)
        = some ((title_review_scores db t).sum
          / ((title_review_scores db t).length : ℚ))
      cases hxs : title_review_scores db t with
      | nil => exact absurd hxs hne
      | cons x xs =>
        unfold sqlAvg
        rw [List.sum_eq_foldl]
  · haveI : IsTotal AnnotatedTitle (fun a b => a.title.id ≤ b.title.id) :=
      ⟨fun a b => Nat.le_total _ _⟩
    haveI : IsTrans AnnotatedTitle (fun a b => a.title.id ≤ b.title.id) :=
      ⟨fun _ _ _ => Nat.le_trans⟩
    exact List.sorted_insertionSort _ _

/-- C8 (witness): the queryset entry for the reviewless concrete title
carries rating `none`. -/
theorem titleViewSet_rating_avg_sorted_witness :
    ({ title := exTitle,
       rating := sqlAvg (title_review_scores exDB8 exTitle) }
      : AnnotatedTitle).rating = none :=
  ((titleViewSet_rating_avg_sorted exDB8).1 _ (List.Mem.head _)).1 rfl

end YamDb
